import Mathlib

/-!
# Verification of the travel-planner core

A shallow embedding of the plan-generation pipeline of the travel-planner
repository (`utils/travel_planner.py`, `utils/llm_client.py`,
`utils/flights_client.py`, `utils/hotels_client.py`, `models/travel_plan.py`,
`app.py`) together with proofs about it.

Conventions of the embedding:
* Python `dict`s produced by `json.loads` are modelled as association lists
  `List (String × JValue)` over a JSON value type `JValue`; lookup returns the
  first binding (real dicts have unique keys).
* Python floats are modelled as rationals `ℚ`; `int(x)` is `⌊x⌋` (all truncated
  quantities in the sources are non-negative, where floor and truncation agree).
* External effects (the generative model, flight search, geocoding, place
  enrichment, the random number generator) are inputs of the embedded
  functions: an inductive outcome or an abstract stream of draws.
* Code that would raise a Python exception is modelled in `Except String`;
  pydantic field validation is modelled strictly (a non-string value in a `str`
  field is an error). No claim below depends on pydantic's coercion rules.
-/

set_option autoImplicit false

namespace TravelPlanner

/-- JSON-like dynamic values: the payloads moved between the generative model,
the provider adapters and the reconciler. -/
inductive JValue where
  | null : JValue
  | bool (b : Bool) : JValue
  | num (q : ℚ) : JValue
  | str (s : String) : JValue
  | arr (elems : List JValue) : JValue
  | obj (fields : List (String × JValue)) : JValue

/-- A Python dict as produced by `json.loads`: an ordered association list. -/
abbrev JObj := List (String × JValue)

/-- First-match lookup, the semantics of `d[k]` / `k in d` on a dict with
unique keys. -/
def jLookup (k : String) : JObj → Option JValue
  | [] => none
  | (k', v) :: rest => if k' = k then some v else jLookup k rest

/-- Python truthiness of a JSON value (`if x:`). -/
def JValue.truthy : JValue → Bool
  | .null => false
  | .bool b => b
  | .num q => !(q == 0)
  | .str s => !(s == "")
  | .arr xs => !xs.isEmpty
  | .obj kvs => !kvs.isEmpty

/-- `d.get(k)`: `None` when the key is absent. -/
def pyGet (kvs : JObj) (k : String) : JValue :=
  (jLookup k kvs).getD .null

/-- `d.get(k, default)`. -/
def pyGetD (kvs : JObj) (k : String) (dflt : JValue) : JValue :=
  (jLookup k kvs).getD dflt

/-- Python `a or b` on JSON values: `a` when truthy, else `b`. -/
def pyOr (a b : JValue) : JValue :=
  if a.truthy then a else b

/-- `d[k] = v` when `k` is already present: replace the stored value in place
(key order preserved, as in CPython dicts). -/
def setKey : JObj → String → JValue → JObj
  | [], _, _ => []
  | (k', v') :: rest, k, v => (if k' = k then (k, v) else (k', v')) :: setKey rest k v

/-- `d[k] = v` in general: overwrite when present, append when absent. -/
def setOrAdd (kvs : JObj) (k : String) (v : JValue) : JObj :=
  if (jLookup k kvs).isSome then setKey kvs k v else kvs ++ [(k, v)]

/-- `{**a, **b}`: the shallow top-level merge of `b` over `a`. Keys of `a`
keep their position with `b`'s value when `b` also binds them; keys only in
`b` follow. -/
def mergeObj (a b : JObj) : JObj :=
  (a.map fun p => (p.1, (jLookup p.1 b).getD p.2)) ++
    b.filter fun p => (jLookup p.1 a).isNone

@[simp] theorem jLookup_nil (k : String) : jLookup k ([] : JObj) = none := rfl

@[simp] theorem jLookup_cons (k k' : String) (v : JValue) (rest : JObj) :
    jLookup k ((k', v) :: rest) = if k' = k then some v else jLookup k rest := rfl

theorem jLookup_append (k : String) (a b : JObj) :
    jLookup k (a ++ b) = ((jLookup k a).orElse fun _ => jLookup k b) := by
  induction a with
  | nil => simp [Option.orElse]
  | cons p rest ih =>
    obtain ⟨k', v⟩ := p
    by_cases h : k' = k <;> simp [jLookup, h, ih, Option.orElse]

/-- Looking up a key in a filtered list: when every dropped pair fails the
predicate and the key's first binding survives, results agree; we only need
the special case used by `mergeObj`. -/
theorem jLookup_filter_isNone (k : String) (a b : JObj) (h : jLookup k a = none) :
    jLookup k (b.filter fun p => (jLookup p.1 a).isNone) = jLookup k b := by
  induction b with
  | nil => simp
  | cons p rest ih =>
    obtain ⟨k', v⟩ := p
    by_cases hk : k' = k
    · subst hk
      simp [List.filter, h, jLookup, ih]
    · by_cases hn : (jLookup k' a).isNone <;>
        simp [List.filter, hn, jLookup, hk, ih]

theorem jLookup_map_update (k : String) (a b : JObj) :
    jLookup k (a.map fun p => (p.1, (jLookup p.1 b).getD p.2)) =
      (jLookup k a).map fun v => (jLookup k b).getD v := by
  induction a with
  | nil => simp
  | cons p rest ih =>
    obtain ⟨k', v⟩ := p
    by_cases h : k' = k <;> simp [jLookup, h, ih]

/-- The characteristic property of `{**a, **b}`: per top-level key, `b`'s
binding wins and keys absent from `b` keep `a`'s value. -/
theorem jLookup_mergeObj (k : String) (a b : JObj) :
    jLookup k (mergeObj a b) = ((jLookup k b).orElse fun _ => jLookup k a) := by
  unfold mergeObj
  rw [jLookup_append, jLookup_map_update]
  cases ha : jLookup k a with
  | none =>
    rw [jLookup_filter_isNone k a b ha]
    cases hb : jLookup k b <;> simp [Option.orElse]
  | some v =>
    cases hb : jLookup k b <;> simp [Option.orElse]

theorem jLookup_setKey_ne (kvs : JObj) (k k' : String) (v : JValue)
    (h : k ≠ k') : jLookup k' (setKey kvs k v) = jLookup k' kvs := by
  induction kvs with
  | nil => rfl
  | cons p rest ih =>
    obtain ⟨k₀, v₀⟩ := p
    by_cases h0 : k₀ = k
    · subst h0
      rw [setKey, if_pos rfl]
      simp [jLookup, h, ih]
    · rw [setKey, if_neg h0]
      by_cases hk : k₀ = k' <;> simp [jLookup, hk, ih]

/-! ## Field decoders (pydantic validation, modelled strictly) -/

/-- A required `str` field. -/
def asStr : JValue → Except String String
  | .str s => .ok s
  | _ => .error "expected string"

/-- An `Optional[str]` field. -/
def asOptStr : JValue → Except String (Option String)
  | .null => .ok none
  | .str s => .ok (some s)
  | _ => .error "expected string or None"

/-- A required `float` field (ints accepted, as in Python). -/
def asNum : JValue → Except String ℚ
  | .num q => .ok q
  | _ => .error "expected number"

/-- An `Optional[float]` field. -/
def asOptNum : JValue → Except String (Option ℚ)
  | .null => .ok none
  | .num q => .ok (some q)
  | _ => .error "expected number or None"

/-- A required `int` field. -/
def asInt : JValue → Except String Int
  | .num q => if q.den = 1 then .ok q.num else .error "expected integer"
  | _ => .error "expected integer"

/-- An `Optional[int]` field. -/
def asOptInt : JValue → Except String (Option Int)
  | .null => .ok none
  | .num q => if q.den = 1 then .ok (some q.num) else .error "expected integer"
  | _ => .error "expected integer or None"

/-- A list of strings. -/
def asStrList : List JValue → Except String (List String)
  | [] => .ok []
  | v :: rest => do
    let s ← asStr v
    let r ← asStrList rest
    .ok (s :: r)

/-- An `Optional[List[str]]` field. -/
def asOptStrList : JValue → Except String (Option (List String))
  | .null => .ok none
  | .arr xs => do
    let l ← asStrList xs
    .ok (some l)
  | _ => .error "expected list of strings or None"

/-- A `str` field read with `d.get(k, dflt)`: the default is used only when the
key is absent; a present value must be a string. -/
def strFieldD (kvs : JObj) (k dflt : String) : Except String String :=
  match jLookup k kvs with
  | none => .ok dflt
  | some v => asStr v

/-- A `float` field read with `d.get(k, q)`. -/
def numFieldD (kvs : JObj) (k : String) (q : ℚ) : Except String ℚ :=
  match jLookup k kvs with
  | none => .ok q
  | some v => asNum v

/-- `d.get(k, {})` feeding later attribute access: the value must be a dict
when present (Python raises `AttributeError` on `.get` of a non-dict). -/
def objFieldD (kvs : JObj) (k : String) : Except String JObj :=
  match jLookup k kvs with
  | none => .ok []
  | some (.obj fields) => .ok fields
  | some _ => .error "expected object"

/-- `d.get(k, [])` feeding later iteration: non-list values are treated as
invalid (Python would raise on iteration, except for the degenerate case of a
string, which iterates characterwise and fails downstream validation). -/
def arrFieldD (kvs : JObj) (k : String) : Except String (List JValue) :=
  match jLookup k kvs with
  | none => .ok []
  | some (.arr xs) => .ok xs
  | some _ => .error "expected list"

/-! ## Dates

Python `datetime.date` values are modelled as proleptic-Gregorian civil dates;
`(b - a).days` is the difference of the civil day counts, and
`strftime("%Y-%m-%d")` is zero-padded rendering. -/

/-- A calendar date (year ≥ 1 for all dates handled by the program). -/
structure PlainDate where
  year : Nat
  month : Nat
  day : Nat

/-- Zero-pad to two digits (`%m`, `%d`). -/
def pad2 (n : Nat) : String :=
  if n < 10 then "0" ++ toString n else toString n

/-- Zero-pad to four digits (`%Y`). -/
def pad4 (n : Nat) : String :=
  if n < 10 then "000" ++ toString n
  else if n < 100 then "00" ++ toString n
  else if n < 1000 then "0" ++ toString n
  else toString n

/-- `date.strftime("%Y-%m-%d")`. -/
def fmtDate (d : PlainDate) : String :=
  pad4 d.year ++ "-" ++ pad2 d.month ++ "-" ++ pad2 d.day

/-- Civil day count of a date (days since 1970-01-01, Gregorian calendar);
the standard days-from-civil computation, valid for year ≥ 1 where all
intermediate quantities are non-negative. -/
def civilDays (d : PlainDate) : Int :=
  let y : Int := if d.month ≤ 2 then (d.year : Int) - 1 else (d.year : Int)
  let m : Int := d.month
  let era : Int := y / 400
  let yoe : Int := y - era * 400
  let doy : Int := (153 * (m + (if m > 2 then -3 else 9)) + 2) / 5 + (d.day : Int) - 1
  let doe : Int := yoe * 365 + yoe / 4 - yoe / 100 + doy
  era * 146097 + doe - 719468

/-- `(end_date - start_date).days`. -/
def daysBetween (a b : PlainDate) : Int :=
  civilDays b - civilDays a

/-- `datetime.strptime(s, "%Y-%m-%d")`, `none` on malformed input (field-range
validation beyond shape is not modelled; no claim depends on it). -/
def parseDate (s : String) : Option PlainDate :=
  match (s.splitOn "-").map String.toNat? with
  | [some y, some m, some d] => some ⟨y, m, d⟩
  | _ => none

/-! ## The data model (`models/travel_plan.py`) -/

/-- `Transportation` (pydantic model). -/
structure Transportation where
  type : String
  from_location : String
  to_location : String
  departure_date : String
  departure_time : Option String
  arrival_date : String
  arrival_time : Option String
  airline : Option String
  flight_number : Option String
  class_type : Option String
  price : Option ℚ
  currency : String := "USD"
  duration : Option String
  notes : Option String

/-- `Accommodation` (pydantic model). -/
structure Accommodation where
  name : String
  type : String
  location : String
  price_per_night : Option ℚ
  total_price : Option ℚ
  currency : String := "USD"
  rating : Option ℚ
  address : Option String
  check_in : String
  check_out : String
  nights : Int
  notes : Option String
  amenities : Option (List String)

/-- `Activity` (pydantic model). -/
structure Activity where
  name : String
  type : String
  time : String
  description : Option String
  location : Option String
  duration : Option String
  cost : Option ℚ
  currency : String := "USD"
  notes : Option String
  rating : Option ℚ
  user_ratings_total : Option Int

/-- `DayItinerary` (pydantic model). -/
structure DayItinerary where
  date : String
  day_number : Int
  morning : List Activity
  afternoon : List Activity
  evening : List Activity
  notes : Option String

/-- `CostBreakdown` (pydantic model). -/
structure CostBreakdown where
  transportation : ℚ
  accommodation : ℚ
  activities : ℚ
  food : ℚ
  local_transport : ℚ
  total : ℚ
  currency : String := "USD"
  per_person : Option ℚ

/-- `TravelPlan` (pydantic model): the validated Plan aggregate. -/
structure TravelPlan where
  plan_type : String
  source : String
  destination : String
  start_date : String
  end_date : String
  duration_days : Int
  travelers : Nat
  transportation : List Transportation
  accommodation : Accommodation
  itinerary : List DayItinerary
  cost_breakdown : CostBreakdown
  summary : Option String
  highlights : Option (List String)
  tips : Option (List String)

/-- `TravelRequest` (pydantic model): the immutable trip specification. -/
structure TravelRequest where
  source : String
  destination : String
  start_date : PlainDate
  end_date : PlainDate
  travelers : Nat
  trip_type : String
  flight_class : String
  flight_price_min : ℚ
  flight_price_max : ℚ
  hotel_address : Option String
  hotel_price_min : ℚ
  hotel_price_max : ℚ
  interest_categories : List String
  activity_level : String
  selected_flight : Option JObj

/-! ## The reconciler (`utils/travel_planner.py`) -/

set_option linter.unusedVariables false in
/-- Lines 273–282: the plan-type classification. The first binding
(`plan_type = "customized"`) is kept to mirror the source; the following
unconditional `if/elif/else` immediately overwrites it. -/
def parsePlanType (req : TravelRequest) : String :=
  let plan_type := "customized"
  let plan_type :=
    if (req.flight_class == "first" || req.flight_class == "business") &&
        decide (req.hotel_price_max > 300) then "comfort"
    else if req.flight_class == "economy" && decide (req.hotel_price_max < 150) then "budget"
    else "balanced"
  plan_type

/-- Lines 184–203: the `Transportation(...)` construction from the (already
flight-merged) transportation dict. -/
def mkTransportation (req : TravelRequest) (transport_data : JObj) :
    Except String Transportation := do
  let ty ← strFieldD transport_data "type" "flight"
  let departure_time ← asOptStr (pyGet transport_data "departure_time")
  let arrival_time ← asOptStr (pyGet transport_data "arrival_time")
  let airline ← asOptStr (pyGet transport_data "airline")
  let flight_number ← asOptStr (pyGet transport_data "flight_number")
  let class_type ← asOptStr (pyGetD transport_data "class_type" (.str req.flight_class))
  let price ← asOptNum (pyOr (pyGet transport_data "estimated_price")
      (pyGet transport_data "price"))
  let dur ← asOptStr (pyGet transport_data "duration")
  let notes ← asOptStr (pyOr (pyGet transport_data "notes")
      (.str (if req.trip_type = "return" then "Round trip flight" else "One-way flight")))
  .ok { type := ty
        from_location := req.source
        to_location := req.destination
        departure_date := fmtDate req.start_date
        departure_time := departure_time
        arrival_date := if req.trip_type = "return" then fmtDate req.end_date
          else fmtDate req.start_date
        arrival_time := arrival_time
        airline := airline
        flight_number := flight_number
        class_type := class_type
        price := price
        duration := dur
        notes := notes }

/-- Lines 205–222: the `Accommodation(...)` construction. -/
def mkAccommodation (req : TravelRequest) (accom_data : JObj) (durationDays : Int) :
    Except String Accommodation := do
  let locV : JValue :=
    match req.hotel_address with
    | some s =>
        if s ≠ "" then .str s
        else pyOr (pyGet accom_data "address") (.str req.destination)
    | none => pyOr (pyGet accom_data "address") (.str req.destination)
  let location ← asStr locV
  let name ← strFieldD accom_data "name" "Hotel"
  let price_per_night ← asOptNum (pyGet accom_data "price_per_night")
  let total_price ← asOptNum (pyGet accom_data "total_price")
  let rating ← asOptNum (pyGet accom_data "rating")
  let notes ← asOptStr (pyGet accom_data "notes")
  let amenities ← asOptStrList (pyGetD accom_data "amenities" (.arr []))
  .ok { name := name
        type := "hotel"
        location := location
        price_per_night := price_per_night
        total_price := total_price
        rating := rating
        address := some location
        check_in := fmtDate req.start_date
        check_out := fmtDate req.end_date
        nights := durationDays
        notes := notes
        amenities := amenities }

/-- Lines 236–248 (inner): `Activity(**act)` after the `time`-slot default has
been filled in; keys of the dict that match model fields are validated, the
rest are ignored. -/
def parseActivityRecord (slot : String) (act0 : JObj) : Except String Activity := do
  let act := if (jLookup "time" act0).isSome then act0 else act0 ++ [("time", .str slot)]
  let name ← match jLookup "name" act with
    | some v => asStr v
    | none => .error "name required"
  let ty ← match jLookup "type" act with
    | some v => asStr v
    | none => .error "type required"
  let time ← match jLookup "time" act with
    | some v => asStr v
    | none => .error "time required"
  let description ← asOptStr (pyGet act "description")
  let location ← asOptStr (pyGet act "location")
  let dur ← asOptStr (pyGet act "duration")
  let cost ← asOptNum (pyGet act "cost")
  let currency ← strFieldD act "currency" "USD"
  let notes ← asOptStr (pyGet act "notes")
  let rating ← asOptNum (pyGet act "rating")
  let user_ratings_total ← asOptInt (pyGet act "user_ratings_total")
  .ok { name := name, type := ty, time := time, description := description,
        location := location, duration := dur, cost := cost, currency := currency,
        notes := notes, rating := rating, user_ratings_total := user_ratings_total }

/-- Lines 234–249: `parse_activities` — dict entries that fail `Activity`
validation are skipped individually; a non-dict entry is appended raw and then
fails `DayItinerary` validation, hence an error. -/
def parse_activities (slot : String) : List JValue → Except String (List Activity)
  | [] => .ok []
  | (.obj kvs) :: rest =>
    (match parseActivityRecord slot kvs with
     | .ok a => (parse_activities slot rest).map fun r => a :: r
     | .error _ => parse_activities slot rest)
  | _ :: _ => .error "non-dict activity entry"

/-- Lines 251–258: one `DayItinerary(...)` from the draft day dict; `idx` is the
1-based position from `enumerate(itinerary_data, 1)`. -/
def parseDay (idx : Nat) (day : JObj) : Except String DayItinerary := do
  let date ← strFieldD day "date" ""
  let day_number ← asInt (pyGetD day "day_number" (.num idx))
  let morningRaw ← arrFieldD day "morning"
  let morning ← parse_activities "morning" morningRaw
  let afternoonRaw ← arrFieldD day "afternoon"
  let afternoon ← parse_activities "afternoon" afternoonRaw
  let eveningRaw ← arrFieldD day "evening"
  let evening ← parse_activities "evening" eveningRaw
  let notes ← asOptStr (pyGet day "notes")
  .ok { date := date, day_number := day_number, morning := morning,
        afternoon := afternoon, evening := evening, notes := notes }

/-- Lines 232–259: the itinerary loop. -/
def parseDays : Nat → List JValue → Except String (List DayItinerary)
  | _, [] => .ok []
  | idx, (.obj kvs) :: rest => do
      let d ← parseDay idx kvs
      let ds ← parseDays (idx + 1) rest
      .ok (d :: ds)
  | _, _ :: _ => .error "non-dict day entry"

/-- Lines 261–271: the `CostBreakdown(...)` construction. -/
def mkCostBreakdown (cost_data : JObj) : Except String CostBreakdown := do
  let transportation ← numFieldD cost_data "transportation" 0
  let accommodation ← numFieldD cost_data "accommodation" 0
  let activities ← numFieldD cost_data "activities" 0
  let food ← numFieldD cost_data "food" 0
  let local_transport ← numFieldD cost_data "local_transport" 0
  let total ← numFieldD cost_data "total" 0
  let per_person ← asOptNum (pyGet cost_data "per_person")
  .ok { transportation := transportation, accommodation := accommodation,
        activities := activities, food := food, local_transport := local_transport,
        total := total, per_person := per_person }

/-- Lines 174–182: the transportation dict after the selected-flight merge
(`{**transport_data, **selected_flight}`, then the explicit price override
when the selected flight has a truthy price). -/
def selectedMergedTransport (req : TravelRequest) (td0 : JObj) : JObj :=
  match req.selected_flight with
  | none => td0
  | some sf =>
      let t := mergeObj td0 sf
      if (pyGet sf "price").truthy then setOrAdd t "price" (pyGet sf "price") else t

/-- Lines 165–302: `_parse_llm_plan_to_travel_plan`; the first raised pydantic
validation error aborts the whole parse, as in Python. -/
def parse_llm_plan_to_travel_plan (llm : JObj) (req : TravelRequest)
    (durationDays : Int) : Except String TravelPlan := do
  let td0 ← objFieldD llm "transportation"
  let transportation ← mkTransportation req (selectedMergedTransport req td0)
  let accom_data ← objFieldD llm "accommodation"
  let accommodation ← mkAccommodation req accom_data durationDays
  let itinerary_data ← arrFieldD llm "itinerary"
  let itinerary ← parseDays 1 itinerary_data
  let cost_data ← objFieldD llm "cost_breakdown"
  let cost_breakdown ← mkCostBreakdown cost_data
  let summary ← asOptStr (pyGet llm "summary")
  let highlights ← asOptStrList (pyGetD llm "highlights" (.arr []))
  let tips ← asOptStrList (pyGetD llm "tips" (.arr []))
  .ok { plan_type := parsePlanType req
        source := req.source
        destination := req.destination
        start_date := fmtDate req.start_date
        end_date := fmtDate req.end_date
        duration_days := durationDays
        travelers := req.travelers
        transportation := [transportation]
        accommodation := accommodation
        itinerary := itinerary
        cost_breakdown := cost_breakdown
        summary := summary
        highlights := highlights
        tips := tips }

/-! ## Orchestration (`generate_travel_plan` / `_generate_single_plan`)

External collaborators are inputs: the drafter's outcome, the flight search
outcome, the destination geocode, and the place-enrichment lookup. -/

/-- Outcome of `llm_client.generate_travel_plan`: a parsed JSON object, or a
raised error (call failure or unparseable content). -/
inductive DraftOutcome where
  | ok (fields : JObj) : DraftOutcome
  | err : DraftOutcome

/-- Outcome of `flights_client.search_flights`: a list of offer dicts, or a
raised exception. -/
inductive FlightsOutcome where
  | ok (flights : List JObj) : FlightsOutcome
  | exn : FlightsOutcome

/-- Lines 102–105: the price-band test
`flight_price_min <= f.get("price", inf) <= flight_price_max`. A missing price
compares as infinity and is never in a finite band; a non-numeric price would
raise in Python (turning the whole lookup into the exception path) and is
modelled as out of band. -/
def fbInBand (req : TravelRequest) (f : JObj) : Bool :=
  match jLookup "price" f with
  | some (.num q) => decide (req.flight_price_min ≤ q) && decide (q ≤ req.flight_price_max)
  | _ => false

/-- Lines 83–108: resolve the transportation enrichment source — the selected
flight if any, else the first in-band search result, else the first result,
else nothing. -/
def resolveFlightData (req : TravelRequest) (fo : FlightsOutcome) : Option JObj :=
  match req.selected_flight with
  | some sf => some sf
  | none =>
    match fo with
    | .exn => none
    | .ok [] => none
    | .ok (f :: fs) =>
        match (f :: fs).filter (fbInBand req) with
        | [] => some f
        | g :: _ => some g

/-- Lines 117–119: `llm_plan_data["transportation"].update(flight_data)` when a
flight was resolved and the draft has a transportation dict. -/
def mergeFlightData (llm : JObj) (flight_data : Option JObj) : Except String JObj :=
  match flight_data with
  | none => .ok llm
  | some fd =>
    if fd.isEmpty then .ok llm
    else match jLookup "transportation" llm with
      | none => .ok llm
      | some (.obj t) => .ok (setKey llm "transportation" (.obj (mergeObj t fd)))
      | some _ => .error "transportation is not a dict"

/-- `places_client.enrich_activity_with_places`, abstracted as a lookup keyed
by the activity's name value and the inferred category string. -/
abbrev PlacesFn := JValue → String → Option JObj

/-- Lines 145–158: enrich one activity in place. -/
def enrichActivity (places : PlacesFn) (act : JValue) : Except String JValue :=
  match act with
  | .obj kvs =>
    let nameV := pyGetD kvs "name" (.str "")
    if nameV.truthy then
      let category :=
        match pyGet kvs "type" with
        | .str s => if s = "attraction" then "tourist_attraction" else "restaurant"
        | _ => "restaurant"
      match places nameV category with
      | some pd =>
          .ok (.obj (setOrAdd (setOrAdd (setOrAdd kvs "rating" (pyGet pd "rating"))
            "location" (pyGet pd "vicinity")) "user_ratings_total"
            (pyGet pd "user_ratings_total")))
      | none => .ok (.obj kvs)
    else .ok (.obj kvs)
  | _ => .error "non-dict activity"

/-- Enrich one time-slot list of activities. -/
def enrichSlotList (places : PlacesFn) : List JValue → Except String (List JValue)
  | [] => .ok []
  | a :: rest => do
      let a' ← enrichActivity places a
      let r ← enrichSlotList places rest
      .ok (a' :: r)

/-- Lines 142–159: enrich one named slot of a day dict when present. -/
def enrichDaySlot (places : PlacesFn) (day : JObj) (slot : String) : Except String JObj :=
  match jLookup slot day with
  | none => .ok day
  | some (.arr acts) => (enrichSlotList places acts).map fun acts' => setKey day slot (.arr acts')
  | some _ => .error "slot is not a list"

/-- Lines 138–161: enrich one day. -/
def enrichDay (places : PlacesFn) (day : JValue) : Except String JValue :=
  match day with
  | .obj kvs => do
      let d1 ← enrichDaySlot places kvs "morning"
      let d2 ← enrichDaySlot places d1 "afternoon"
      let d3 ← enrichDaySlot places d2 "evening"
      .ok (.obj d3)
  | _ => .error "non-dict day"

/-- Lines 130–163: `_enrich_itinerary_with_places`. -/
def enrichItineraryDays (places : PlacesFn) : List JValue → Except String (List JValue)
  | [] => .ok []
  | d :: rest => do
      let d' ← enrichDay places d
      let r ← enrichItineraryDays places rest
      .ok (d' :: r)

/-- Line 37: `duration = (end_date - start_date).days + 1`. -/
def planDuration (req : TravelRequest) : Int :=
  daysBetween req.start_date req.end_date + 1

/-- Lines 110–115: `if destination_coords and "itinerary" in llm_plan_data:`
run the place enrichment over the draft itinerary. -/
def enrichStep (places : PlacesFn) (dest_coords : Option (ℚ × ℚ)) (llm : JObj) :
    Except String JObj :=
  match dest_coords with
  | none => .ok llm
  | some _ =>
    match jLookup "itinerary" llm with
    | none => .ok llm
    | some (.arr days) =>
        (enrichItineraryDays places days).map fun ds => setKey llm "itinerary" (.arr ds)
    | some _ => .error "itinerary is not a list"

/-- Lines 23–128: `generate_travel_plan` / `_generate_single_plan`. Any raised
exception is caught at the top and turned into `none`. -/
def generate_travel_plan (req : TravelRequest) (draft : DraftOutcome)
    (fo : FlightsOutcome) (dest_coords : Option (ℚ × ℚ)) (places : PlacesFn) :
    Option TravelPlan :=
  match draft with
  | .err => none
  | .ok llm =>
    let flight_data := resolveFlightData req fo
    (do
      let llm1 ← enrichStep places dest_coords llm
      let llm2 ← mergeFlightData llm1 flight_data
      parse_llm_plan_to_travel_plan llm2 req (planDuration req)).toOption

/-! ## The conversational patch engine (`utils/llm_client.py`, lines 240–374)

The generative call and the two string-level parsing attempts (direct
`json.loads`, then regex extraction of an embedded `{...}` block) are external;
their joint outcome is the input of the embedded function. -/

/-- Joint outcome of the model call and response parsing in
`modify_itinerary`:
* `parsed v` — `json.loads(content)` succeeded with `v`;
* `extracted v` — direct parse failed, the regex-extracted `{...}` substring
  parsed as `v` (necessarily an object, since the substring is brace-delimited);
* `unparseable` — both attempts failed;
* `exn` — the API call (or anything else in the `try` block) raised. -/
inductive ModifyReply where
  | parsed (v : JValue) : ModifyReply
  | extracted (v : JValue) : ModifyReply
  | unparseable : ModifyReply
  | exn : ModifyReply

/-- Lines 333–335 / 352–354: wrap a non-list `transportation` value into a
single-element list. -/
def ensureTransportList (kvs : JObj) : JObj :=
  match jLookup "transportation" kvs with
  | some (.arr _) => kvs
  | some v => setKey kvs "transportation" (.arr [v])
  | none => kvs

/-- The result dict of `modify_itinerary`. -/
structure ModifyResult where
  success : Bool
  plan : JValue
  message : String

/-- Lines 320–374: `modify_itinerary`. A parsed non-dict response makes the
membership test or `{**current, **modified}` raise, landing in the generic
handler. -/
def modify_itinerary (current : JObj) (reply : ModifyReply) : ModifyResult :=
  match reply with
  | .parsed (.obj kvs) =>
      { success := true
        plan := .obj (mergeObj current (ensureTransportList kvs))
        message := "Itinerary updated successfully!" }
  | .extracted (.obj kvs) =>
      { success := true
        plan := .obj (mergeObj current (ensureTransportList kvs))
        message := "Itinerary updated successfully!" }
  | .unparseable =>
      { success := false
        plan := .obj current
        message := "I understood your request but had trouble updating the plan. Could you try rephrasing?" }
  | _ =>
      { success := false
        plan := .obj current
        message := "Sorry, something went wrong while updating the itinerary. Please try again." }

/-! ## Schema validation at the caller (`app.py`, lines 798–826)

`TravelPlan(**updated_plan_dict)` re-validates the merged record against the
pydantic models; decoders below mirror that validation field by field. -/

/-- `Transportation(**d)` validation. -/
def decodeTransportationRecord : JValue → Except String Transportation
  | .obj kvs => do
    let ty ← match jLookup "type" kvs with
      | some v => asStr v
      | none => .error "type required"
    let from_location ← match jLookup "from_location" kvs with
      | some v => asStr v
      | none => .error "from_location required"
    let to_location ← match jLookup "to_location" kvs with
      | some v => asStr v
      | none => .error "to_location required"
    let departure_date ← match jLookup "departure_date" kvs with
      | some v => asStr v
      | none => .error "departure_date required"
    let arrival_date ← match jLookup "arrival_date" kvs with
      | some v => asStr v
      | none => .error "arrival_date required"
    let departure_time ← asOptStr (pyGet kvs "departure_time")
    let arrival_time ← asOptStr (pyGet kvs "arrival_time")
    let airline ← asOptStr (pyGet kvs "airline")
    let flight_number ← asOptStr (pyGet kvs "flight_number")
    let class_type ← asOptStr (pyGet kvs "class_type")
    let price ← asOptNum (pyGet kvs "price")
    let currency ← strFieldD kvs "currency" "USD"
    let dur ← asOptStr (pyGet kvs "duration")
    let notes ← asOptStr (pyGet kvs "notes")
    .ok { type := ty, from_location := from_location, to_location := to_location,
          departure_date := departure_date, departure_time := departure_time,
          arrival_date := arrival_date, arrival_time := arrival_time,
          airline := airline, flight_number := flight_number, class_type := class_type,
          price := price, currency := currency, duration := dur, notes := notes }
  | _ => .error "expected Transportation object"

/-- `Accommodation(**d)` validation. -/
def decodeAccommodationRecord : JValue → Except String Accommodation
  | .obj kvs => do
    let name ← match jLookup "name" kvs with
      | some v => asStr v
      | none => .error "name required"
    let ty ← match jLookup "type" kvs with
      | some v => asStr v
      | none => .error "type required"
    let location ← match jLookup "location" kvs with
      | some v => asStr v
      | none => .error "location required"
    let check_in ← match jLookup "check_in" kvs with
      | some v => asStr v
      | none => .error "check_in required"
    let check_out ← match jLookup "check_out" kvs with
      | some v => asStr v
      | none => .error "check_out required"
    let nights ← match jLookup "nights" kvs with
      | some v => asInt v
      | none => .error "nights required"
    let price_per_night ← asOptNum (pyGet kvs "price_per_night")
    let total_price ← asOptNum (pyGet kvs "total_price")
    let currency ← strFieldD kvs "currency" "USD"
    let rating ← asOptNum (pyGet kvs "rating")
    let address ← asOptStr (pyGet kvs "address")
    let notes ← asOptStr (pyGet kvs "notes")
    let amenities ← asOptStrList (pyGet kvs "amenities")
    .ok { name := name, type := ty, location := location,
          price_per_night := price_per_night, total_price := total_price,
          currency := currency, rating := rating, address := address,
          check_in := check_in, check_out := check_out, nights := nights,
          notes := notes, amenities := amenities }
  | _ => .error "expected Accommodation object"

/-- `Activity(**d)` validation (no slot defaulting here: this is the plain
model validator used through `DayItinerary`). -/
def decodeActivityRecord : JValue → Except String Activity
  | .obj kvs => do
    let name ← match jLookup "name" kvs with
      | some v => asStr v
      | none => .error "name required"
    let ty ← match jLookup "type" kvs with
      | some v => asStr v
      | none => .error "type required"
    let time ← match jLookup "time" kvs with
      | some v => asStr v
      | none => .error "time required"
    let description ← asOptStr (pyGet kvs "description")
    let location ← asOptStr (pyGet kvs "location")
    let dur ← asOptStr (pyGet kvs "duration")
    let cost ← asOptNum (pyGet kvs "cost")
    let currency ← strFieldD kvs "currency" "USD"
    let notes ← asOptStr (pyGet kvs "notes")
    let rating ← asOptNum (pyGet kvs "rating")
    let user_ratings_total ← asOptInt (pyGet kvs "user_ratings_total")
    .ok { name := name, type := ty, time := time, description := description,
          location := location, duration := dur, cost := cost, currency := currency,
          notes := notes, rating := rating, user_ratings_total := user_ratings_total }
  | _ => .error "expected Activity object"

/-- `List[Activity]` validation. -/
def decodeActivityList : List JValue → Except String (List Activity)
  | [] => .ok []
  | v :: rest => do
    let a ← decodeActivityRecord v
    let r ← decodeActivityList rest
    .ok (a :: r)

/-- `DayItinerary(**d)` validation. -/
def decodeDayRecord : JValue → Except String DayItinerary
  | .obj kvs => do
    let date ← match jLookup "date" kvs with
      | some v => asStr v
      | none => .error "date required"
    let day_number ← match jLookup "day_number" kvs with
      | some v => asInt v
      | none => .error "day_number required"
    let morning ← match jLookup "morning" kvs with
      | some (.arr xs) => decodeActivityList xs
      | some _ => .error "morning must be a list"
      | none => .error "morning required"
    let afternoon ← match jLookup "afternoon" kvs with
      | some (.arr xs) => decodeActivityList xs
      | some _ => .error "afternoon must be a list"
      | none => .error "afternoon required"
    let evening ← match jLookup "evening" kvs with
      | some (.arr xs) => decodeActivityList xs
      | some _ => .error "evening must be a list"
      | none => .error "evening required"
    let notes ← asOptStr (pyGet kvs "notes")
    .ok { date := date, day_number := day_number, morning := morning,
          afternoon := afternoon, evening := evening, notes := notes }
  | _ => .error "expected DayItinerary object"

/-- `List[DayItinerary]` validation. -/
def decodeDayList : List JValue → Except String (List DayItinerary)
  | [] => .ok []
  | v :: rest => do
    let d ← decodeDayRecord v
    let r ← decodeDayList rest
    .ok (d :: r)

/-- `List[Transportation]` validation. -/
def decodeTransportationList : List JValue → Except String (List Transportation)
  | [] => .ok []
  | v :: rest => do
    let t ← decodeTransportationRecord v
    let r ← decodeTransportationList rest
    .ok (t :: r)

/-- `CostBreakdown(**d)` validation. -/
def decodeCostBreakdownRecord : JValue → Except String CostBreakdown
  | .obj kvs => do
    let transportation ← match jLookup "transportation" kvs with
      | some v => asNum v
      | none => .error "transportation required"
    let accommodation ← match jLookup "accommodation" kvs with
      | some v => asNum v
      | none => .error "accommodation required"
    let activities ← match jLookup "activities" kvs with
      | some v => asNum v
      | none => .error "activities required"
    let food ← match jLookup "food" kvs with
      | some v => asNum v
      | none => .error "food required"
    let local_transport ← match jLookup "local_transport" kvs with
      | some v => asNum v
      | none => .error "local_transport required"
    let total ← match jLookup "total" kvs with
      | some v => asNum v
      | none => .error "total required"
    let currency ← strFieldD kvs "currency" "USD"
    let per_person ← asOptNum (pyGet kvs "per_person")
    .ok { transportation := transportation, accommodation := accommodation,
          activities := activities, food := food, local_transport := local_transport,
          total := total, currency := currency, per_person := per_person }
  | _ => .error "expected CostBreakdown object"

/-- `TravelPlan(**d)` validation: the Plan-schema check run by the caller on
the merged record. -/
def decodeTravelPlanRecord : JValue → Except String TravelPlan
  | .obj kvs => do
    let plan_type ← match jLookup "plan_type" kvs with
      | some v => asStr v
      | none => .error "plan_type required"
    let source ← match jLookup "source" kvs with
      | some v => asStr v
      | none => .error "source required"
    let destination ← match jLookup "destination" kvs with
      | some v => asStr v
      | none => .error "destination required"
    let start_date ← match jLookup "start_date" kvs with
      | some v => asStr v
      | none => .error "start_date required"
    let end_date ← match jLookup "end_date" kvs with
      | some v => asStr v
      | none => .error "end_date required"
    let duration_days ← match jLookup "duration_days" kvs with
      | some v => asInt v
      | none => .error "duration_days required"
    let travelers ← match jLookup "travelers" kvs with
      | some v => do
          let n ← asInt v
          if n < 0 then .error "travelers must be an int" else .ok n.toNat
      | none => .error "travelers required"
    let transportation ← match jLookup "transportation" kvs with
      | some (.arr xs) => decodeTransportationList xs
      | some _ => .error "transportation must be a list"
      | none => .error "transportation required"
    let accommodation ← match jLookup "accommodation" kvs with
      | some v => decodeAccommodationRecord v
      | none => .error "accommodation required"
    let itinerary ← match jLookup "itinerary" kvs with
      | some (.arr xs) => decodeDayList xs
      | some _ => .error "itinerary must be a list"
      | none => .error "itinerary required"
    let cost_breakdown ← match jLookup "cost_breakdown" kvs with
      | some v => decodeCostBreakdownRecord v
      | none => .error "cost_breakdown required"
    let summary ← asOptStr (pyGet kvs "summary")
    let highlights ← asOptStrList (pyGet kvs "highlights")
    let tips ← asOptStrList (pyGet kvs "tips")
    .ok { plan_type := plan_type, source := source, destination := destination,
          start_date := start_date, end_date := end_date,
          duration_days := duration_days, travelers := travelers,
          transportation := transportation, accommodation := accommodation,
          itinerary := itinerary, cost_breakdown := cost_breakdown,
          summary := summary, highlights := highlights, tips := tips }
  | _ => .error "expected TravelPlan object"

/-- `app.py` lines 798–826: apply an edit result to the session's current plan
dict — on `success`, re-validate with `TravelPlan(**merged)` and keep the prior
dict when validation raises; on failure, keep the prior dict. -/
def appApplyEdit (current : JObj) (reply : ModifyReply) : JObj :=
  let r := modify_itinerary current reply
  if r.success then
    match r.plan with
    | .obj merged =>
        match decodeTravelPlanRecord (.obj merged) with
        | .ok _ => merged
        | .error _ => current
    | _ => current
  else current

/-! ## Synthetic data generators (`flights_client.py` 350–475, `hotels_client.py` 236–357)

Randomness is an input: `nat i` is the i-th raw integer draw and `unit i` the
i-th unit draw (`random.random()` yields values in `[0,1)`; no property below
needs that bound, so draws are unconstrained). Draw indices enumerate
successive RNG outputs. `int(x)` is modelled as `⌊x⌋`; all truncated values in
the sources are non-negative for in-range draws, where floor and Python's
truncation agree. `round(x, n)` (banker's rounding) is modelled as half-up
rounding; no claim depends on tie behaviour. -/

/-- An abstract stream of RNG draws. -/
structure MockRand where
  nat : Nat → Nat
  unit : Nat → ℚ

/-- `random.randint(lo, hi)`: both endpoints inclusive. -/
def randintM (g : MockRand) (i lo hi : Nat) : Nat :=
  lo + g.nat i % (hi - lo + 1)

/-- `random.choice(l)` on a non-empty list. -/
def chooseM {α : Type} (g : MockRand) (i : Nat) (l : List α) (dflt : α) : α :=
  l.getD (g.nat i % l.length) dflt

/-- `random.uniform(a, b)`. -/
def uniformM (g : MockRand) (i : Nat) (a b : ℚ) : ℚ :=
  a + g.unit i * (b - a)

/-- `round(q, p)` (half-up model). -/
def roundQ (q : ℚ) (p : Nat) : ℚ :=
  (⌊q * (10 : ℚ) ^ p + 1/2⌋ : ℚ) / (10 : ℚ) ^ p

/-- The mock airline pool. -/
def mockAirlines : List String :=
  ["American Airlines", "United Airlines", "Delta Air Lines",
   "JetBlue Airways", "Southwest Airlines", "Alaska Airlines"]

/-- `base_prices.get(class_type.lower(), 300)`. -/
def flightBasePrice (class_type : String) : ℚ :=
  let c := class_type.toLower
  if c = "economy" then 300
  else if c = "premium_economy" then 600
  else if c = "business" then 1200
  else if c = "first" then 2500
  else 300

/-- One iteration of the mock-flight loop (index `i` from 0). -/
def mockFlightOffer (g : MockRand) (passengers : Nat) (class_type : String)
    (return_date : Option String) (i : Nat) : JObj :=
  let j := 1 + 12 * i
  let airline := chooseM g j mockAirlines "American Airlines"
  let hour := 6 + (i * 2) % 18
  let minute := chooseM g (j + 1) [0, 15, 30, 45] 0
  let departure_time := pad2 hour ++ ":" ++ pad2 minute
  let duration_hours := randintM g (j + 2) 3 12
  let duration_minutes := chooseM g (j + 3) [0, 15, 30, 45] 0
  let dur := toString duration_hours ++ "h " ++ toString duration_minutes ++ "m"
  let arr_hour0 := (hour + duration_hours) % 24
  let arr_min := (minute + duration_minutes) % 60
  let arr_hour := if minute + duration_minutes ≥ 60 then (arr_hour0 + 1) % 24 else arr_hour0
  let arrival_time := pad2 arr_hour ++ ":" ++ pad2 arr_min
  let price_variation := uniformM g (3 * i) (7/10) (13/10)
  let price_multiplier : ℚ := if return_date.isSome then 37/20 else 1
  let price : Int := ⌊flightBasePrice class_type * price_variation * price_multiplier * (passengers : ℚ)⌋
  let stop_prob := g.unit (3 * i + 1)
  let stops : Nat := if stop_prob < 7/10 then 0 else if stop_prob < 19/20 then 1 else 2
  let flight_number := toString (randintM g (j + 4) 100 9999)
  let base : JObj :=
    [("airline", .str airline),
     ("flight_number", .str flight_number),
     ("departure_time", .str departure_time),
     ("arrival_time", .str arrival_time),
     ("duration", .str dur),
     ("price", .num (price : ℚ)),
     ("currency", .str "USD"),
     ("class_type", .str class_type),
     ("stops", .num (stops : ℚ))]
  match return_date with
  | some rd =>
    let r_airline := chooseM g (j + 5) mockAirlines "American Airlines"
    let r_hour := 14 + (i * 2) % 10
    let r_minute := chooseM g (j + 6) [0, 15, 30, 45] 0
    let r_dep := pad2 r_hour ++ ":" ++ pad2 r_minute
    let r_dh := randintM g (j + 7) 3 12
    let r_dm := chooseM g (j + 8) [0, 15, 30, 45] 0
    let r_dur := toString r_dh ++ "h " ++ toString r_dm ++ "m"
    let r_ah0 := (r_hour + r_dh) % 24
    let r_am := (r_minute + r_dm) % 60
    let r_ah := if r_minute + r_dm ≥ 60 then (r_ah0 + 1) % 24 else r_ah0
    let r_arr := pad2 r_ah ++ ":" ++ pad2 r_am
    let r_stop_prob := g.unit (3 * i + 2)
    let r_stops : Nat := if r_stop_prob < 7/10 then 0 else if r_stop_prob < 19/20 then 1 else 2
    let r_fn := toString (randintM g (j + 9) 100 9999)
    base ++
      [("return_airline", .str r_airline),
       ("return_flight_number", .str r_fn),
       ("return_departure_time", .str r_dep),
       ("return_arrival_time", .str r_arr),
       ("return_duration", .str r_dur),
       ("return_stops", .num (r_stops : ℚ)),
       ("return_date", .str rd),
       ("trip_type", .str "return")]
  | none => base ++ [("trip_type", .str "one_way")]

/-- The flight sort key `x.get("price", inf)` (`_parse_amadeus_flights` uses
the same key; mock offers always carry a numeric price). -/
def offerPrice (f : JObj) : WithTop ℚ :=
  match jLookup "price" f with
  | some (.num q) => (q : WithTop ℚ)
  | _ => ⊤

/-- Ascending price order on offer dicts. -/
def offerLe (a b : JObj) : Prop := offerPrice a ≤ offerPrice b

instance : DecidableRel offerLe :=
  fun a b => inferInstanceAs (Decidable (offerPrice a ≤ offerPrice b))

instance : IsTotal JObj offerLe := ⟨fun a b => le_total (offerPrice a) (offerPrice b)⟩

instance : IsTrans JObj offerLe := ⟨fun _ _ _ hab hbc => le_trans hab hbc⟩

/-- `_generate_mock_flights`: 8–12 offers, sorted ascending by price.
`origin`, `destination` and `departure_date` are accepted and unused, as in
the source. -/
def generateMockFlights (g : MockRand) (_origin _destination _departure_date : String)
    (passengers : Nat) (class_type : String) (return_date : Option String) : List JObj :=
  let num_flights := randintM g 0 8 12
  let flights := (List.range num_flights).map
    (mockFlightOffer g passengers class_type return_date)
  List.insertionSort offerLe flights

/-- The hotel chain pool. -/
def hotelChains : List String :=
  ["Marriott", "Hilton", "Hyatt", "InterContinental",
   "Radisson", "Best Western", "Holiday Inn", "Sheraton",
   "Westin", "Four Seasons", "Ritz-Carlton", "W Hotels"]

/-- The hotel type pool. -/
def hotelTypes : List String :=
  ["Hotel", "Inn", "Resort", "Suites", "Plaza", "Grand Hotel"]

/-- The room type pool. -/
def roomTypes : List String :=
  ["Standard Room", "Deluxe Room", "Superior Room",
   "Executive Suite", "Junior Suite", "Family Room"]

/-- The street pool for mock addresses. -/
def mockStreets : List String := ["Main St", "Central Ave", "Park Blvd", "Market St"]

/-- `hotels_client` lines 261–267: number of nights from the date strings,
1 on a parse failure. -/
def mockNights (check_in_date check_out_date : String) : Int :=
  match parseDate check_in_date, parseDate check_out_date with
  | some a, some b => daysBetween a b
  | _, _ => 1

/-- One iteration of the mock-hotel loop (index `i` from 0). The great-circle
distance is transcendental and enters as the abstract function `hdist`. -/
def mockHotelOffer (g : MockRand) (hdist : ℚ × ℚ → ℚ × ℚ → ℚ) (city_code : String)
    (check_in_date check_out_date : String) (rooms : Nat)
    (landmark_coords : Option (ℚ × ℚ)) (i : Nat) : JObj :=
  let j := 1 + 16 * i
  let nights := mockNights check_in_date check_out_date
  let center := landmark_coords.getD (244283/5000, 11761/5000)
  let chain := chooseM g j hotelChains "Marriott"
  let hotel_type := chooseM g (j + 1) hotelTypes "Hotel"
  let name := chain ++ " " ++ hotel_type ++ " " ++ city_code
  let lat := center.1 + uniformM g (4 * i) (-1/20) (1/20)
  let lng := center.2 + uniformM g (4 * i + 1) (-1/20) (1/20)
  let distance_km : Option ℚ := landmark_coords.map fun lc => hdist lc (lat, lng)
  let tier := chooseM g (j + 2) ["budget", "mid", "upscale", "luxury"] "budget"
  let budget_base := randintM g (j + 3) 60 100
  let mid_base := randintM g (j + 4) 100 180
  let upscale_base := randintM g (j + 5) 180 350
  let luxury_base := randintM g (j + 6) 350 800
  let base : Nat :=
    if tier = "budget" then budget_base
    else if tier = "mid" then mid_base
    else if tier = "upscale" then upscale_base
    else luxury_base
  -- `if distance_km and distance_km < 2:` — a 0.0 distance is falsy in Python
  let price_per_night : Int :=
    match distance_km with
    | some d =>
        if d ≠ 0 ∧ d < 2 then ⌊(base : ℚ) * (13/10)⌋
        else if d ≠ 0 ∧ d < 5 then ⌊(base : ℚ) * (11/10)⌋
        else (base : Int)
    | none => (base : Int)
  let total_price : ℚ := (price_per_night : ℚ) * (nights : ℚ) * (rooms : ℚ)
  let rating :=
    if tier = "budget" then roundQ (uniformM g (4 * i + 2) (5/2) (7/2)) 1
    else if tier = "mid" then roundQ (uniformM g (4 * i + 2) (7/2) 4) 1
    else if tier = "upscale" then roundQ (uniformM g (4 * i + 2) 4 (9/2)) 1
    else roundQ (uniformM g (4 * i + 2) (9/2) 5) 1
  let amenities : List String :=
    if tier = "upscale" ∨ tier = "luxury" then
      ["Free WiFi", "Pool", "Spa", "Gym", "Restaurant", "Room Service"]
    else if tier = "mid" then ["Free WiFi", "Gym", "Restaurant", "Parking"]
    else ["Free WiFi", "Parking"]
  let street_no := randintM g (j + 7) 1 200
  let addr := toString street_no ++ " " ++ chooseM g (j + 8) mockStreets "Main St"
  -- `round(distance_km, 2) if distance_km else round(random.uniform(0.5, 10), 2)`
  let dist_val : ℚ :=
    match distance_km with
    | some d => if d ≠ 0 then roundQ d 2 else roundQ (uniformM g (4 * i + 3) (1/2) 10) 2
    | none => roundQ (uniformM g (4 * i + 3) (1/2) 10) 2
  [("hotel_id", .str ("MOCK_" ++ toString i ++ "_" ++ city_code)),
   ("name", .str name),
   ("address", .str addr),
   ("city", .str city_code),
   ("rating", .num rating),
   ("latitude", .num (roundQ lat 6)),
   ("longitude", .num (roundQ lng 6)),
   ("price_per_night", .num (price_per_night : ℚ)),
   ("total_price", .num total_price),
   ("currency", .str "USD"),
   ("room_type", .str (chooseM g (j + 9) roomTypes "Standard Room")),
   ("distance_km", .num dist_val),
   ("amenities", .arr (amenities.map .str)),
   ("tier", .str tier),
   ("check_in_date", .str check_in_date),
   ("check_out_date", .str check_out_date)]

/-- The hotel sort key `x['price_per_night']` (always present on generated
offers). -/
def hotelPrice (h : JObj) : WithTop ℚ :=
  match jLookup "price_per_night" h with
  | some (.num q) => (q : WithTop ℚ)
  | _ => ⊤

/-- Ascending nightly-price order on hotel dicts. -/
def hotelLe (a b : JObj) : Prop := hotelPrice a ≤ hotelPrice b

instance : DecidableRel hotelLe :=
  fun a b => inferInstanceAs (Decidable (hotelPrice a ≤ hotelPrice b))

instance : IsTotal JObj hotelLe := ⟨fun a b => le_total (hotelPrice a) (hotelPrice b)⟩

instance : IsTrans JObj hotelLe := ⟨fun _ _ _ hab hbc => le_trans hab hbc⟩

/-- `_generate_mock_hotels`: 8–15 offers, sorted ascending by nightly price.
`adults` is accepted and unused, as in the source. -/
def generateMockHotels (g : MockRand) (hdist : ℚ × ℚ → ℚ × ℚ → ℚ) (city_code : String)
    (check_in_date check_out_date : String) (_adults rooms : Nat)
    (landmark_coords : Option (ℚ × ℚ)) : List JObj :=
  let num_hotels := randintM g 0 8 15
  let hotels := (List.range num_hotels).map
    (mockHotelOffer g hdist city_code check_in_date check_out_date rooms landmark_coords)
  List.insertionSort hotelLe hotels

/-! ## Helper lemmas -/

theorem exceptBind_ok {α β : Type} {x : Except String α} {f : α → Except String β} {b : β}
    (h : (x >>= f) = .ok b) : ∃ a, x = .ok a ∧ f a = .ok b := by
  cases x with
  | error e => exact absurd h (by simp [Bind.bind, Except.bind])
  | ok a => exact ⟨a, rfl, h⟩

theorem exceptMap_ok {α β : Type} {x : Except String α} {f : α → β} {b : β}
    (h : x.map f = .ok b) : ∃ a, x = .ok a ∧ f a = b := by
  cases x with
  | error e => exact absurd h (by simp [Except.map])
  | ok a =>
    refine ⟨a, rfl, ?_⟩
    simpa [Except.map] using h

theorem jLookup_setKey_of_present {kvs : JObj} {k : String} {w : JValue} (v : JValue)
    (h : jLookup k kvs = some w) : jLookup k (setKey kvs k v) = some v := by
  induction kvs with
  | nil => simp at h
  | cons p rest ih =>
    obtain ⟨k₀, v₀⟩ := p
    by_cases h0 : k₀ = k
    · subst h0
      rw [setKey, if_pos rfl]
      simp [jLookup]
    · rw [setKey, if_neg h0]
      rw [jLookup_cons, if_neg h0] at h
      simp [jLookup, h0, ih h]

theorem mkAccommodation_shape {req : TravelRequest} {a : JObj} {dur : Int}
    {acc : Accommodation} (h : mkAccommodation req a dur = .ok acc) :
    acc.check_in = fmtDate req.start_date ∧ acc.check_out = fmtDate req.end_date ∧
      acc.nights = dur := by
  simp only [mkAccommodation] at h
  obtain ⟨loc, _, h⟩ := exceptBind_ok h
  obtain ⟨name, _, h⟩ := exceptBind_ok h
  obtain ⟨ppn, _, h⟩ := exceptBind_ok h
  obtain ⟨tp, _, h⟩ := exceptBind_ok h
  obtain ⟨rat, _, h⟩ := exceptBind_ok h
  obtain ⟨nts, _, h⟩ := exceptBind_ok h
  obtain ⟨am, _, h⟩ := exceptBind_ok h
  injection h with h
  subst h
  exact ⟨rfl, rfl, rfl⟩

theorem parseDay_day_number {idx : Nat} {kvs : JObj} {d : DayItinerary}
    (h : parseDay idx kvs = .ok d) :
    asInt (pyGetD kvs "day_number" (.num idx)) = .ok d.day_number := by
  simp only [parseDay] at h
  obtain ⟨date, _, h⟩ := exceptBind_ok h
  obtain ⟨dn, hdn, h⟩ := exceptBind_ok h
  obtain ⟨mr, _, h⟩ := exceptBind_ok h
  obtain ⟨m, _, h⟩ := exceptBind_ok h
  obtain ⟨ar, _, h⟩ := exceptBind_ok h
  obtain ⟨af, _, h⟩ := exceptBind_ok h
  obtain ⟨er, _, h⟩ := exceptBind_ok h
  obtain ⟨ev, _, h⟩ := exceptBind_ok h
  obtain ⟨nts, _, h⟩ := exceptBind_ok h
  injection h with h
  subst h
  exact hdn

theorem asInt_num_natCast (n : Nat) : asInt (.num (n : ℚ)) = .ok (n : Int) := by
  simp [asInt, Rat.den_natCast, Rat.num_natCast]

/-- `parseDays` produces one `DayItinerary` per draft entry, and an entry that
either omits `day_number` or numbers itself by position yields a day numbered
by position. -/
theorem parseDays_spec (days : List JValue) : ∀ (idx : Nat) (ds : List DayItinerary),
    parseDays idx days = .ok ds →
    ds.length = days.length ∧
    ∀ i (hi : i < ds.length) (hi' : i < days.length),
      (∀ kvs, days.get ⟨i, hi'⟩ = .obj kvs →
        jLookup "day_number" kvs = none ∨
          jLookup "day_number" kvs = some (.num ((idx + i : Nat) : ℚ))) →
      (ds.get ⟨i, hi⟩).day_number = ((idx + i : Nat) : Int) := by
  induction days with
  | nil =>
    intro idx ds h
    simp only [parseDays] at h
    injection h with h
    subst h
    exact ⟨rfl, fun i hi => absurd hi (by simp)⟩
  | cons d rest ih =>
    intro idx ds h
    match d with
    | .null | .bool _ | .num _ | .str _ | .arr _ => simp [parseDays] at h
    | .obj kvs =>
      simp only [parseDays] at h
      obtain ⟨d0, hd0, h⟩ := exceptBind_ok h
      obtain ⟨ds0, hds0, h⟩ := exceptBind_ok h
      injection h with h
      subst h
      obtain ⟨hlen, hspec⟩ := ih (idx + 1) ds0 hds0
      refine ⟨by simp [hlen], ?_⟩
      intro i hi hi' hnum
      cases i with
      | zero =>
        simp only [Nat.add_zero] at hnum
        have hdn := parseDay_day_number hd0
        have hres : d0.day_number = (idx : Int) := by
          rcases hnum kvs rfl with hn | hn
          · rw [pyGetD, hn, Option.getD_none, asInt_num_natCast] at hdn
            injection hdn with hdn
            exact hdn.symm
          · rw [pyGetD, hn, Option.getD_some, asInt_num_natCast] at hdn
            injection hdn with hdn
            exact hdn.symm
        show d0.day_number = ((idx + 0 : Nat) : Int)
        rw [hres]
        simp
      | succ j =>
        have hj : j < ds0.length := by
          simp only [List.length_cons] at hi
          omega
        have hj' : j < rest.length := by
          simp only [List.length_cons] at hi'
          omega
        have harith : idx + (j + 1) = idx + 1 + j := by omega
        have hres := hspec j hj hj' (fun kvs' hkvs' => by
          rcases hnum kvs' hkvs' with hn | hn
          · exact Or.inl hn
          · rw [harith] at hn
            exact Or.inr hn)
        show (ds0.get ⟨j, hj⟩).day_number = ((idx + (j + 1) : Nat) : Int)
        rw [hres, harith]

theorem enrichDaySlot_preserves {places : PlacesFn} {day day' : JObj} {slot k : String}
    (h : enrichDaySlot places day slot = .ok day') (hk : k ≠ slot) :
    jLookup k day' = jLookup k day := by
  unfold enrichDaySlot at h
  split at h
  · injection h with h
    subst h
    rfl
  · obtain ⟨acts', _, h⟩ := exceptMap_ok h
    subst h
    exact jLookup_setKey_ne day slot k _ (fun hs => hk hs.symm)
  · exact absurd h (by simp)

theorem enrichDay_shape {places : PlacesFn} {d d' : JValue}
    (h : enrichDay places d = .ok d') :
    ∃ kvs kvs', d = .obj kvs ∧ d' = .obj kvs' ∧
      jLookup "day_number" kvs' = jLookup "day_number" kvs := by
  match d with
  | .null | .bool _ | .num _ | .str _ | .arr _ => simp [enrichDay] at h
  | .obj kvs =>
    simp only [enrichDay] at h
    obtain ⟨d1, hd1, h⟩ := exceptBind_ok h
    obtain ⟨d2, hd2, h⟩ := exceptBind_ok h
    obtain ⟨d3, hd3, h⟩ := exceptBind_ok h
    injection h with h
    refine ⟨kvs, d3, rfl, h.symm, ?_⟩
    rw [enrichDaySlot_preserves hd3 (by decide),
      enrichDaySlot_preserves hd2 (by decide),
      enrichDaySlot_preserves hd1 (by decide)]

/-- Place enrichment keeps the itinerary length and every day's `day_number`
binding. -/
theorem enrichDays_spec {places : PlacesFn} (days : List JValue) :
    ∀ (ds : List JValue), enrichItineraryDays places days = .ok ds →
    ds.length = days.length ∧
    ∀ i (hi : i < ds.length) (hi' : i < days.length) (kvs' : JObj),
      ds.get ⟨i, hi⟩ = .obj kvs' →
      ∃ kvs, days.get ⟨i, hi'⟩ = .obj kvs ∧
        jLookup "day_number" kvs' = jLookup "day_number" kvs := by
  induction days with
  | nil =>
    intro ds h
    simp only [enrichItineraryDays] at h
    injection h with h
    subst h
    exact ⟨rfl, fun i hi => absurd hi (by simp)⟩
  | cons d rest ih =>
    intro ds h
    simp only [enrichItineraryDays] at h
    obtain ⟨d', hd', h⟩ := exceptBind_ok h
    obtain ⟨ds0, hds0, h⟩ := exceptBind_ok h
    injection h with h
    subst h
    obtain ⟨hlen, hspec⟩ := ih ds0 hds0
    refine ⟨by simp [hlen], ?_⟩
    intro i hi hi' kvs' hkvs'
    cases i with
    | zero =>
      obtain ⟨kvs0, kvs1, hk0, hk1, hpres⟩ := enrichDay_shape hd'
      have hd'e : d' = .obj kvs' := hkvs'
      rw [hd'e] at hk1
      injection hk1 with hk1
      subst hk1
      exact ⟨kvs0, hk0, hpres⟩
    | succ j =>
      have hj : j < ds0.length := by
        simp only [List.length_cons] at hi
        omega
      have hj' : j < rest.length := by
        simp only [List.length_cons] at hi'
        omega
      exact hspec j hj hj' kvs' hkvs'

theorem mergeFlightData_itinerary {llm llm2 : JObj} {fd : Option JObj}
    (h : mergeFlightData llm fd = .ok llm2) :
    jLookup "itinerary" llm2 = jLookup "itinerary" llm := by
  unfold mergeFlightData at h
  split at h
  · injection h with h; subst h; rfl
  · split at h
    · injection h with h; subst h; rfl
    · split at h
      · injection h with h; subst h; rfl
      · injection h with h
        subst h
        exact jLookup_setKey_ne llm "transportation" "itinerary" _ (by decide)
      · exact absurd h (by simp)

theorem exceptToOption_some {α : Type} {x : Except String α} {a : α}
    (h : x.toOption = some a) : x = .ok a := by
  cases x with
  | error e => simp [Except.toOption] at h
  | ok b =>
    simp only [Except.toOption, Option.some.injEq] at h
    rw [h]

/-- Every successfully parsed plan carries the structural fields pinned by the
reconciler: the classification, a singleton transportation list, the trip's
check-in/check-out dates, `nights = durationDays`, and an itinerary produced by
`parseDays` from the draft's `itinerary` value. -/
theorem parse_ok_shape {llm : JObj} {req : TravelRequest} {dur : Int} {p : TravelPlan}
    (h : parse_llm_plan_to_travel_plan llm req dur = .ok p) :
    p.plan_type = parsePlanType req ∧
    p.transportation.length = 1 ∧
    p.accommodation.check_in = fmtDate req.start_date ∧
    p.accommodation.check_out = fmtDate req.end_date ∧
    p.accommodation.nights = dur ∧
    p.duration_days = dur ∧
    ∃ its, arrFieldD llm "itinerary" = .ok its ∧ parseDays 1 its = .ok p.itinerary := by
  simp only [parse_llm_plan_to_travel_plan] at h
  obtain ⟨td0, _, h⟩ := exceptBind_ok h
  obtain ⟨transportation, _, h⟩ := exceptBind_ok h
  obtain ⟨accom_data, _, h⟩ := exceptBind_ok h
  obtain ⟨accommodation, hacc, h⟩ := exceptBind_ok h
  obtain ⟨its, hits, h⟩ := exceptBind_ok h
  obtain ⟨itinerary, hdays, h⟩ := exceptBind_ok h
  obtain ⟨cost_data, _, h⟩ := exceptBind_ok h
  obtain ⟨cb, _, h⟩ := exceptBind_ok h
  obtain ⟨summary, _, h⟩ := exceptBind_ok h
  obtain ⟨hl, _, h⟩ := exceptBind_ok h
  obtain ⟨tp, _, h⟩ := exceptBind_ok h
  injection h with h
  subst h
  obtain ⟨hc1, hc2, hc3⟩ := mkAccommodation_shape hacc
  exact ⟨rfl, rfl, hc1, hc2, hc3, rfl, its, hits, hdays⟩

theorem enrichStep_cases {places : PlacesFn} {coords : Option (ℚ × ℚ)} {llm llm1 : JObj}
    (h : enrichStep places coords llm = .ok llm1) :
    llm1 = llm ∨
    ∃ days ds, jLookup "itinerary" llm = some (.arr days) ∧
      enrichItineraryDays places days = .ok ds ∧
      llm1 = setKey llm "itinerary" (.arr ds) := by
  unfold enrichStep at h
  split at h
  · injection h with h
    exact Or.inl h.symm
  · split at h
    · injection h with h
      exact Or.inl h.symm
    · rename_i days heq
      obtain ⟨ds, hds, hl⟩ := exceptMap_ok h
      exact Or.inr ⟨days, ds, heq, hds, hl.symm⟩
    · exact absurd h (by simp)

/-- A generated plan came from a successful parse of a dict whose `itinerary`
value is either the draft's own or the place-enriched version of it. -/
theorem generate_ok_cases {req : TravelRequest} {llm : JObj} {fo : FlightsOutcome}
    {coords : Option (ℚ × ℚ)} {places : PlacesFn} {p : TravelPlan}
    (h : generate_travel_plan req (.ok llm) fo coords places = some p) :
    ∃ llm2, parse_llm_plan_to_travel_plan llm2 req (planDuration req) = .ok p ∧
      (jLookup "itinerary" llm2 = jLookup "itinerary" llm ∨
       ∃ days ds, jLookup "itinerary" llm = some (.arr days) ∧
         enrichItineraryDays places days = .ok ds ∧
         jLookup "itinerary" llm2 = some (.arr ds)) := by
  simp only [generate_travel_plan] at h
  replace h := exceptToOption_some h
  obtain ⟨llm1, hE, h⟩ := exceptBind_ok h
  obtain ⟨llm2, hmerge, hparse⟩ := exceptBind_ok h
  refine ⟨llm2, hparse, ?_⟩
  have hmi := mergeFlightData_itinerary hmerge
  rcases enrichStep_cases hE with h1 | ⟨days, ds, hld, hed, h1⟩
  · subst h1
    exact Or.inl hmi
  · refine Or.inr ⟨days, ds, hld, hed, ?_⟩
    rw [hmi, h1]
    exact jLookup_setKey_of_present _ hld

instance : IsRefl JObj offerLe := ⟨fun a => le_refl (offerPrice a)⟩

instance : IsRefl JObj hotelLe := ⟨fun a => le_refl (hotelPrice a)⟩

theorem sorted_head_le {α : Type} {r : α → α → Prop} [IsRefl α r] {a : α} {l : List α}
    (h : List.Sorted r (a :: l)) : ∀ b ∈ a :: l, r a b := by
  intro b hb
  rcases List.mem_cons.mp hb with rfl | hb
  · exact IsRefl.refl b
  · exact List.rel_of_sorted_cons h b hb

theorem sorted_filter {α : Type} {r : α → α → Prop} {l : List α} (p : α → Bool)
    (h : List.Sorted r l) : List.Sorted r (l.filter p) :=
  List.Pairwise.sublist (List.filter_sublist l) h

/-! ## Concrete fixtures

The spec's example scenario: NYC → Paris, 2025-06-01..2025-06-05 (5 days),
2 travelers, economy, flights $200–2000, hotel $50–500. -/

/-- The example trip specification, no pre-selected flight. -/
def fixtureRequest : TravelRequest :=
  { source := "NYC", destination := "Paris",
    start_date := ⟨2025, 6, 1⟩, end_date := ⟨2025, 6, 5⟩,
    travelers := 2, trip_type := "return", flight_class := "economy",
    flight_price_min := 200, flight_price_max := 2000,
    hotel_address := none, hotel_price_min := 50, hotel_price_max := 500,
    interest_categories := ["culture", "food"], activity_level := "moderate",
    selected_flight := none }

/-- A well-formed generative draft whose transportation carries an
`estimated_price` of 800, per the drafter's requested schema. -/
def fixtureDraft : JObj :=
  [("transportation", .obj [("type", .str "flight"), ("estimated_price", .num 800),
      ("airline", .str "Air Model")]),
   ("accommodation", .obj [("name", .str "Hotel X"), ("price_per_night", .num 120)]),
   ("itinerary", .arr [.obj [("date", .str "2025-06-01"), ("day_number", .num 1),
      ("morning", .arr [.obj [("name", .str "Louvre"), ("type", .str "attraction")]])]]),
   ("cost_breakdown", .obj [("total", .num 2000)])]

/-- A user-selected flight record, as produced by the flight search. -/
def fixtureSelectedFlight : JObj :=
  [("price", .num 450), ("airline", .str "Delta Air Lines"),
   ("departure_time", .str "08:00"), ("arrival_time", .str "16:00")]

/-- The example specification with the selected flight attached. -/
def fixtureRequestSel : TravelRequest :=
  { fixtureRequest with selected_flight := some fixtureSelectedFlight }

/-- A draft whose single itinerary entry numbers itself 7. -/
def fixtureDraftBadDay : JObj :=
  [("transportation", .obj [("type", .str "flight"), ("estimated_price", .num 800)]),
   ("accommodation", .obj [("name", .str "Hotel X")]),
   ("itinerary", .arr [.obj [("date", .str "2025-06-01"), ("day_number", .num 7)]]),
   ("cost_breakdown", .obj [("total", .num 2000)])]

/-- A place-enrichment lookup that never matches. -/
def noPlaces : PlacesFn := fun _ _ => none

/-! ## The claims -/

/-- C2 (code bug, evaluated at the failing input): with a selected flight of
price 450 and a draft whose transportation carries `estimated_price` 800, the
generated plan's transportation takes its airline and departure/arrival times
from the selected flight, but its price is the draft's 800 — the expression
`transport_data.get("estimated_price") or transport_data.get("price")`
(travel_planner.py line 198) prefers the surviving draft key over the selected
flight's price, defeating the explicit override of lines 181–182. -/
theorem C2_selected_flight_price_bug :
    jLookup "price" fixtureSelectedFlight = some (.num 450) ∧
    (generate_travel_plan fixtureRequestSel (.ok fixtureDraft) .exn none noPlaces).map
        (fun p => p.transportation.map fun t =>
          (t.price, t.airline, t.departure_time, t.arrival_time))
      = some [(some 800, some "Delta Air Lines", some "08:00", some "16:00")] ∧
    (800 : ℚ) ≠ 450 :=
  ⟨rfl, rfl, by decide⟩

/-- C3: whenever the patch response is unparseable (both the direct parse and
the embedded-object extraction fail) or any other exception is raised, the
result has `success = false`, a non-empty human-readable message, and its plan
field is exactly the prior plan. -/
theorem C3_failure_preserves_plan (current : JObj) (reply : ModifyReply)
    (h : reply = .unparseable ∨ reply = .exn) :
    (modify_itinerary current reply).success = false ∧
    (modify_itinerary current reply).plan = .obj current ∧
    (modify_itinerary current reply).message ≠ "" := by
  rcases h with rfl | rfl
  · refine ⟨rfl, rfl, ?_⟩
    show ("I understood your request but had trouble updating the plan. Could you try rephrasing?" : String) ≠ ""
    decide
  · refine ⟨rfl, rfl, ?_⟩
    show ("Sorry, something went wrong while updating the itinerary. Please try again." : String) ≠ ""
    decide

/-- Witness for C3 at a concrete prior plan and the unparseable outcome. -/
theorem C3_witness :
    (modify_itinerary [("plan_type", .str "balanced")] .unparseable).success = false ∧
    (modify_itinerary [("plan_type", .str "balanced")] .unparseable).plan
        = .obj [("plan_type", .str "balanced")] ∧
    (modify_itinerary [("plan_type", .str "balanced")] .unparseable).message ≠ "" :=
  C3_failure_preserves_plan [("plan_type", .str "balanced")] .unparseable (Or.inl rfl)

/-- C4 counterexample: `modify_itinerary` itself performs no Plan-schema
validation — a parseable response whose merge is schema-invalid is returned
with `success = true`. -/
theorem C4_counterexample :
    (modify_itinerary [] (.parsed (.obj [("plan_type", .num 1)]))).success = true ∧
    (decodeTravelPlanRecord
        (modify_itinerary [] (.parsed (.obj [("plan_type", .num 1)]))).plan).isOk = false :=
  ⟨rfl, rfl⟩

/-- C4 (amended): `modify_itinerary` reports success for every parseable object
response, returning the shallow merge unvalidated; the Plan-schema validation
happens in the caller (`app.py` lines 798–826), which keeps the prior plan dict
whenever `TravelPlan(**merged)` fails. -/
theorem C4_validation_amended (current kvs : JObj) :
    (modify_itinerary current (.parsed (.obj kvs))).success = true ∧
    (modify_itinerary current (.parsed (.obj kvs))).plan
        = .obj (mergeObj current (ensureTransportList kvs)) ∧
    ((decodeTravelPlanRecord (.obj (mergeObj current (ensureTransportList kvs)))).isOk = false →
      appApplyEdit current (.parsed (.obj kvs)) = current) := by
  refine ⟨rfl, rfl, ?_⟩
  intro hbad
  show (match decodeTravelPlanRecord (.obj (mergeObj current (ensureTransportList kvs))) with
        | .ok _ => mergeObj current (ensureTransportList kvs)
        | .error _ => current) = current
  cases hdec : decodeTravelPlanRecord (.obj (mergeObj current (ensureTransportList kvs))) with
  | ok tp =>
    rw [hdec] at hbad
    simp [Except.isOk, Except.toBool] at hbad
  | error e => rfl

/-- Witness for C4 (amended): a response whose merge over an empty prior dict
is schema-invalid is accepted by the engine but rejected by the caller, which
keeps the prior dict. -/
theorem C4_witness :
    (modify_itinerary [] (.parsed (.obj [("x", .num 1)]))).success = true ∧
    appApplyEdit [] (.parsed (.obj [("x", .num 1)])) = [] :=
  ⟨(C4_validation_amended [] [("x", .num 1)]).1,
   (C4_validation_amended [] [("x", .num 1)]).2.2 rfl⟩

/-- C5: a successful `modify_itinerary` returns exactly the shallow top-level
merge of the (shape-repaired) parsed response over the prior plan: every key
present in the response takes the response's value — so a shorter itinerary
array replaces, i.e. truncates, the prior one — every absent key keeps the
prior value, there is no deep merge, and the shape repair touches only the
"transportation" key. -/
theorem C5_shallow_merge (current kvs : JObj) (k : String) :
    (modify_itinerary current (.parsed (.obj kvs))).success = true ∧
    (modify_itinerary current (.parsed (.obj kvs))).plan
        = .obj (mergeObj current (ensureTransportList kvs)) ∧
    jLookup k (mergeObj current (ensureTransportList kvs))
        = ((jLookup k (ensureTransportList kvs)).orElse fun _ => jLookup k current) ∧
    (k ≠ "transportation" → jLookup k (ensureTransportList kvs) = jLookup k kvs) := by
  refine ⟨rfl, rfl, jLookup_mergeObj k current _, ?_⟩
  intro hk
  unfold ensureTransportList
  split
  · rfl
  · exact jLookup_setKey_ne kvs "transportation" k _ fun h => hk h.symm
  · rfl

/-- Witness for C5: a response returning a one-day itinerary truncates the
prior two-day itinerary, while the untouched `travelers` key survives. -/
theorem C5_witness :
    jLookup "itinerary"
        (mergeObj [("itinerary", .arr [.num 1, .num 2]), ("travelers", .num 2)]
          (ensureTransportList [("itinerary", .arr [.num 1])]))
      = some (.arr [.num 1]) ∧
    jLookup "travelers"
        (mergeObj [("itinerary", .arr [.num 1, .num 2]), ("travelers", .num 2)]
          (ensureTransportList [("itinerary", .arr [.num 1])]))
      = some (.num 2) ∧
    jLookup "itinerary" (ensureTransportList [("itinerary", .arr [.num 1])])
      = jLookup "itinerary" [("itinerary", .arr [.num 1])] := by
  refine ⟨?_, ?_, ?_⟩
  · rw [(C5_shallow_merge [("itinerary", .arr [.num 1, .num 2]), ("travelers", .num 2)]
      [("itinerary", .arr [.num 1])] "itinerary").2.2.1]
    rfl
  · rw [(C5_shallow_merge [("itinerary", .arr [.num 1, .num 2]), ("travelers", .num 2)]
      [("itinerary", .arr [.num 1])] "travelers").2.2.1]
    rfl
  · exact (C5_shallow_merge [("itinerary", .arr [.num 1, .num 2]), ("travelers", .num 2)]
      [("itinerary", .arr [.num 1])] "itinerary").2.2.2 (by decide)

/-- C6 counterexample: for the 5-day example trip the accommodation's
check-in/check-out equal the trip's start/end dates, but `nights` is 5 — the
full `durationDays` — not the 4-night stay length between check-in and
check-out. -/
theorem C6_counterexample :
    (generate_travel_plan fixtureRequest (.ok fixtureDraft) .exn none noPlaces).map
        (fun p => (p.accommodation.check_in, p.accommodation.check_out, p.accommodation.nights))
      = some ("2025-06-01", "2025-06-05", 5) ∧
    planDuration fixtureRequest = 5 ∧
    daysBetween fixtureRequest.start_date fixtureRequest.end_date = 4 ∧
    (5 : Int) ≠ 4 :=
  ⟨rfl, rfl, rfl, by decide⟩

/-- C6 (amended): every generated plan's accommodation has
`check_in`/`check_out` equal to the trip's start/end dates and
`nights = durationDays` (not `durationDays − 1`). -/
theorem C6_accommodation_amended (req : TravelRequest) (draft : DraftOutcome)
    (fo : FlightsOutcome) (coords : Option (ℚ × ℚ)) (places : PlacesFn) (p : TravelPlan)
    (h : generate_travel_plan req draft fo coords places = some p) :
    p.accommodation.check_in = fmtDate req.start_date ∧
    p.accommodation.check_out = fmtDate req.end_date ∧
    p.accommodation.nights = planDuration req := by
  cases draft with
  | err => simp [generate_travel_plan] at h
  | ok llm =>
    obtain ⟨llm2, hparse, _⟩ := generate_ok_cases h
    obtain ⟨_, _, h3, h4, h5, _, _⟩ := parse_ok_shape hparse
    exact ⟨h3, h4, h5⟩

/-- Witness for C6 (amended) at the example scenario. -/
theorem C6_witness :
    (generate_travel_plan fixtureRequest (.ok fixtureDraft) .exn none noPlaces).map
        (fun p => (p.accommodation.check_in, p.accommodation.check_out, p.accommodation.nights))
      = some (fmtDate fixtureRequest.start_date, fmtDate fixtureRequest.end_date,
          planDuration fixtureRequest) := by
  obtain ⟨p, hp⟩ := Option.isSome_iff_exists.mp
    (show (generate_travel_plan fixtureRequest (.ok fixtureDraft) .exn none noPlaces).isSome
      = true from rfl)
  rw [hp]
  obtain ⟨h1, h2, h3⟩ :=
    C6_accommodation_amended fixtureRequest (.ok fixtureDraft) .exn none noPlaces p hp
  refine congrArg some ?_
  show (p.accommodation.check_in, p.accommodation.check_out, p.accommodation.nights) = _
  rw [h1, h2, h3]

/-- The plan-type rule written with propositional connectives. -/
theorem parsePlanType_eq (req : TravelRequest) :
    parsePlanType req =
      (if (req.flight_class = "first" ∨ req.flight_class = "business") ∧
          req.hotel_price_max > 300 then "comfort"
       else if req.flight_class = "economy" ∧ req.hotel_price_max < 150 then "budget"
       else "balanced") := by
  have hb1 : (((req.flight_class == "first" || req.flight_class == "business") &&
      decide (req.hotel_price_max > 300)) = true) ↔
      ((req.flight_class = "first" ∨ req.flight_class = "business") ∧
        req.hotel_price_max > 300) := by
    simp [Bool.and_eq_true, Bool.or_eq_true, beq_iff_eq, decide_eq_true_eq]
  have hb2 : ((req.flight_class == "economy" && decide (req.hotel_price_max < 150)) = true) ↔
      (req.flight_class = "economy" ∧ req.hotel_price_max < 150) := by
    simp [Bool.and_eq_true, beq_iff_eq, decide_eq_true_eq]
  unfold parsePlanType
  by_cases h1 : (req.flight_class = "first" ∨ req.flight_class = "business") ∧
      req.hotel_price_max > 300
  · rw [if_pos (hb1.mpr h1), if_pos h1]
  · rw [if_neg (fun hb => h1 (hb1.mp hb)), if_neg h1]
    by_cases h2 : req.flight_class = "economy" ∧ req.hotel_price_max < 150
    · rw [if_pos (hb2.mpr h2), if_pos h2]
    · rw [if_neg (fun hb => h2 (hb2.mp hb)), if_neg h2]

theorem parsePlanType_ne_customized (req : TravelRequest) :
    parsePlanType req ≠ "customized" := by
  unfold parsePlanType
  split
  · decide
  · split
    · decide
    · decide

/-- C7 counterexample: with a user-selected flight present, the generated
plan's type is "balanced", not "customized" — the initial
`plan_type = "customized"` assignment is dead code, unconditionally overwritten
by the `if/elif/else` that follows. -/
theorem C7_counterexample :
    fixtureRequestSel.selected_flight.isSome = true ∧
    (generate_travel_plan fixtureRequestSel (.ok fixtureDraft) .exn none noPlaces).map
        (fun p => p.plan_type) = some "balanced" ∧
    ("balanced" : String) ≠ "customized" :=
  ⟨rfl, rfl, by decide⟩

/-- C7 (amended): the plan type is "comfort" when the flight class is first or
business and the hotel ceiling exceeds 300, "budget" when the class is economy
and the ceiling is under 150, otherwise "balanced"; "customized" is never
produced, selected flight or not. -/
theorem C7_plan_type_amended (req : TravelRequest) (draft : DraftOutcome)
    (fo : FlightsOutcome) (coords : Option (ℚ × ℚ)) (places : PlacesFn) (p : TravelPlan)
    (h : generate_travel_plan req draft fo coords places = some p) :
    p.plan_type =
      (if (req.flight_class = "first" ∨ req.flight_class = "business") ∧
          req.hotel_price_max > 300 then "comfort"
       else if req.flight_class = "economy" ∧ req.hotel_price_max < 150 then "budget"
       else "balanced") ∧
    p.plan_type ≠ "customized" := by
  cases draft with
  | err => simp [generate_travel_plan] at h
  | ok llm =>
    obtain ⟨llm2, hparse, _⟩ := generate_ok_cases h
    have hpt := (parse_ok_shape hparse).1
    constructor
    · rw [hpt, parsePlanType_eq]
    · rw [hpt]
      exact parsePlanType_ne_customized req

/-- Witness for C7 (amended): the economy example trip with a 500 hotel
ceiling classifies as "balanced". -/
theorem C7_witness :
    (generate_travel_plan fixtureRequest (.ok fixtureDraft) .exn none noPlaces).map
        (fun p => p.plan_type) = some "balanced" := by
  obtain ⟨p, hp⟩ := Option.isSome_iff_exists.mp
    (show (generate_travel_plan fixtureRequest (.ok fixtureDraft) .exn none noPlaces).isSome
      = true from rfl)
  rw [hp]
  refine congrArg some ?_
  show p.plan_type = "balanced"
  rw [(C7_plan_type_amended fixtureRequest (.ok fixtureDraft) .exn none noPlaces p hp).1]
  decide

/-- C10: every generated plan has exactly one Transportation element,
whatever the trip type, draft, or flight-search outcome — return-leg details
are folded into that single element. -/
theorem C10_single_transportation (req : TravelRequest) (draft : DraftOutcome)
    (fo : FlightsOutcome) (coords : Option (ℚ × ℚ)) (places : PlacesFn) (p : TravelPlan)
    (h : generate_travel_plan req draft fo coords places = some p) :
    p.transportation.length = 1 := by
  cases draft with
  | err => simp [generate_travel_plan] at h
  | ok llm =>
    obtain ⟨llm2, hparse, _⟩ := generate_ok_cases h
    exact (parse_ok_shape hparse).2.1

/-- Witness for C10 at the example scenario (a return trip). -/
theorem C10_witness :
    (generate_travel_plan fixtureRequest (.ok fixtureDraft) .exn none noPlaces).map
        (fun p => p.transportation.length) = some 1 := by
  obtain ⟨p, hp⟩ := Option.isSome_iff_exists.mp
    (show (generate_travel_plan fixtureRequest (.ok fixtureDraft) .exn none noPlaces).isSome
      = true from rfl)
  rw [hp]
  exact congrArg some
    (C10_single_transportation fixtureRequest (.ok fixtureDraft) .exn none noPlaces p hp)

/-- The draft's raw itinerary list (empty when the key is absent; a present
non-list value always aborts generation). -/
def rawItinerary (llm : JObj) : List JValue :=
  match jLookup "itinerary" llm with
  | some (.arr ds) => ds
  | _ => []

/-- C1 counterexample: a draft whose single day entry carries `day_number: 7`
produces a Plan whose first (position-1) day is numbered 7 — the reconciler
copies the draft's `day_number` instead of enforcing position numbering. -/
theorem C1_counterexample :
    (generate_travel_plan fixtureRequest (.ok fixtureDraftBadDay) .exn none noPlaces).map
        (fun p => p.itinerary.map fun d => d.day_number) = some [7] ∧
    (7 : Int) ≠ 0 + 1 :=
  ⟨rfl, by decide⟩

/-- C1 (amended): `generate_travel_plan` returns `none` or a Plan with one
itinerary day per draft entry, numbered by the draft's `day_number` when
present and by position otherwise. Consequently, whenever the draft itinerary
has at most `durationDays` entries, each omitting `day_number` or setting it to
its 1-based position, the returned Plan satisfies
`itinerary.length ≤ duration_days` and `itinerary[i].day_number = i+1`; a draft
with extra entries or out-of-position numbers is carried into the Plan
unchanged. -/
theorem C1_day_numbering_amended (req : TravelRequest) (llm : JObj) (fo : FlightsOutcome)
    (coords : Option (ℚ × ℚ)) (places : PlacesFn) (p : TravelPlan)
    (hlen : ((rawItinerary llm).length : Int) ≤ planDuration req)
    (hnum : ∀ (i : Nat) (hi : i < (rawItinerary llm).length) (kvs : JObj),
      (rawItinerary llm).get ⟨i, hi⟩ = .obj kvs →
      jLookup "day_number" kvs = none ∨
        jLookup "day_number" kvs = some (.num ((1 + i : Nat) : ℚ)))
    (h : generate_travel_plan req (.ok llm) fo coords places = some p) :
    ((p.itinerary.length : Int) ≤ planDuration req) ∧
    ∀ (i : Nat) (hi : i < p.itinerary.length), (p.itinerary.get ⟨i, hi⟩).day_number = (i : Int) + 1 := by
  obtain ⟨llm2, hparse, hitin⟩ := generate_ok_cases h
  obtain ⟨_, _, _, _, _, _, its, hits, hdays⟩ := parse_ok_shape hparse
  suffices hsuff : its.length = (rawItinerary llm).length ∧
      ∀ i (hi : i < its.length) (kvs' : JObj), its.get ⟨i, hi⟩ = .obj kvs' →
        jLookup "day_number" kvs' = none ∨
          jLookup "day_number" kvs' = some (.num ((1 + i : Nat) : ℚ)) by
    obtain ⟨hleneq, hnum'⟩ := hsuff
    obtain ⟨hplen, hpnum⟩ := parseDays_spec its 1 p.itinerary hdays
    constructor
    · rw [hplen, hleneq]
      exact hlen
    · intro i hi
      have hi' : i < its.length := by rw [← hplen]; exact hi
      have hd := hpnum i hi hi' fun kvs hk => hnum' i hi' kvs hk
      rw [hd]
      push_cast
      ring
  rcases hitin with hsame | ⟨days, ds, hld, hed, hl2⟩
  · have hraw : its = rawItinerary llm := by
      unfold arrFieldD at hits
      rw [hsame] at hits
      unfold rawItinerary
      cases hll : jLookup "itinerary" llm with
      | none =>
        rw [hll] at hits
        injection hits with hits
        exact hits.symm
      | some v =>
        rw [hll] at hits
        cases v with
        | arr days =>
          injection hits with hits
          exact hits.symm
        | null => exact absurd hits (by simp)
        | bool b => exact absurd hits (by simp)
        | num q => exact absurd hits (by simp)
        | str s => exact absurd hits (by simp)
        | obj kvs => exact absurd hits (by simp)
    subst hraw
    exact ⟨rfl, hnum⟩
  · have hraw : rawItinerary llm = days := by
      unfold rawItinerary
      rw [hld]
    subst hraw
    have hits' : its = ds := by
      unfold arrFieldD at hits
      rw [hl2] at hits
      injection hits with hits
      exact hits.symm
    subst hits'
    obtain ⟨hdlen, hdpres⟩ := enrichDays_spec (rawItinerary llm) _ hed
    refine ⟨hdlen, ?_⟩
    intro i hi kvs' hk
    have hi' : i < (rawItinerary llm).length := by rw [← hdlen]; exact hi
    obtain ⟨kvs, hkd, hpres⟩ := hdpres i hi hi' kvs' hk
    rcases hnum i hi' kvs hkd with hn | hn
    · left
      rw [hpres]
      exact hn
    · right
      rw [hpres]
      exact hn

/-- Witness for C1 (amended) at the example scenario: the well-formed draft
(one entry numbered 1, 5-day trip) yields a Plan whose itinerary length is
within the duration and whose days are numbered by position. -/
theorem C1_witness :
    (generate_travel_plan fixtureRequest (.ok fixtureDraft) .exn none noPlaces).map
        (fun p => decide (((p.itinerary.length : Int) ≤ planDuration fixtureRequest) ∧
          ∀ (i : Nat) (hi : i < p.itinerary.length),
            (p.itinerary.get ⟨i, hi⟩).day_number = (i : Int) + 1))
      = some true := by
  obtain ⟨p, hp⟩ := Option.isSome_iff_exists.mp
    (show (generate_travel_plan fixtureRequest (.ok fixtureDraft) .exn none noPlaces).isSome
      = true from rfl)
  have hnum : ∀ (i : Nat) (hi : i < (rawItinerary fixtureDraft).length) (kvs : JObj),
      (rawItinerary fixtureDraft).get ⟨i, hi⟩ = .obj kvs →
      jLookup "day_number" kvs = none ∨
        jLookup "day_number" kvs = some (.num ((1 + i : Nat) : ℚ)) := by
    intro i hi kvs hk
    cases i with
    | zero =>
      refine Or.inr ?_
      have hkvs : JValue.obj [("date", .str "2025-06-01"), ("day_number", .num 1),
          ("morning", .arr [.obj [("name", .str "Louvre"), ("type", .str "attraction")]])]
            = .obj kvs := hk
      injection hkvs with hkvs
      rw [← hkvs]
      have hq : ((1 + 0 : Nat) : ℚ) = 1 := by norm_num
      rw [hq]
      rfl
    | succ j =>
      have hone : (rawItinerary fixtureDraft).length = 1 := rfl
      rw [hone] at hi
      omega
  have hres := C1_day_numbering_amended fixtureRequest fixtureDraft .exn none noPlaces p
    (by decide) hnum hp
  rw [hp]
  refine congrArg some ?_
  show decide _ = true
  exact decide_eq_true hres

/-- C8: during generation without a pre-selected flight, the reconciler takes
the first search result inside the price band
`[flight_price_min, flight_price_max]` when one exists, else the first
unfiltered result, else nothing; on results sorted ascending by price (which
both the synthetic generator and the real-offer parser guarantee) the first
in-band result is the cheapest in-band one and the first unfiltered result is
the cheapest overall; on an adapter exception or no resolved flight the draft
dict passes through the flight merge unchanged. -/
theorem C8_flight_reconciliation (req : TravelRequest) (flights : List JObj) (llm : JObj)
    (hsel : req.selected_flight = none)
    (hsorted : List.Sorted offerLe flights) :
    resolveFlightData req (.ok flights)
        = ((flights.filter (fbInBand req)).head?.orElse fun _ => flights.head?) ∧
    (∀ f, (flights.filter (fbInBand req)).head? = some f →
        ∀ g ∈ flights.filter (fbInBand req), offerLe f g) ∧
    (∀ f, flights.head? = some f → ∀ g ∈ flights, offerLe f g) ∧
    resolveFlightData req .exn = none ∧
    mergeFlightData llm none = .ok llm := by
  refine ⟨?_, ?_, ?_, ?_, rfl⟩
  · unfold resolveFlightData
    rw [hsel]
    cases flights with
    | nil => rfl
    | cons f fs =>
      show (match (f :: fs).filter (fbInBand req) with
            | [] => some f
            | g :: _ => some g)
          = (((f :: fs).filter (fbInBand req)).head?.orElse fun _ => (f :: fs).head?)
      cases hf : (f :: fs).filter (fbInBand req) with
      | nil => rfl
      | cons g gs => rfl
  · intro f hf g hg
    have hs := sorted_filter (fbInBand req) hsorted
    cases hfil : flights.filter (fbInBand req) with
    | nil =>
      rw [hfil] at hf
      simp at hf
    | cons a t =>
      rw [hfil] at hf hg hs
      have hfa : a = f := by
        simpa using hf
      subst hfa
      exact sorted_head_le hs g hg
  · intro f hf g hg
    cases flights with
    | nil => simp at hf
    | cons a t =>
      have hfa : a = f := by
        simpa using hf
      subst hfa
      exact sorted_head_le hsorted g hg
  · unfold resolveFlightData
    rw [hsel]

/-- Search results for the C8 witness: three offers sorted ascending by price,
with only the 300-priced one inside the example band [200, 2000]. -/
def fixtureFlights : List JObj :=
  [[("price", .num 100)], [("price", .num 300)], [("price", .num 2500)]]

/-- Witness for C8: on the concrete sorted result list the reconciler picks the
300-priced offer (first and cheapest in band), and an adapter exception
resolves to nothing with the draft dict unchanged. -/
theorem C8_witness :
    fixtureRequest.selected_flight = none ∧
    List.Sorted offerLe fixtureFlights ∧
    resolveFlightData fixtureRequest (.ok fixtureFlights) = some [("price", .num 300)] ∧
    resolveFlightData fixtureRequest .exn = none ∧
    mergeFlightData fixtureDraft none = .ok fixtureDraft := by
  have hsor : List.Sorted offerLe fixtureFlights := by decide
  obtain ⟨h1, _, _, h4, h5⟩ :=
    C8_flight_reconciliation fixtureRequest fixtureFlights fixtureDraft rfl hsor
  refine ⟨rfl, hsor, ?_, h4, h5⟩
  rw [h1]
  rfl

/-- C9: for every input (any RNG draws, any distance oracle, any trip
parameters) the synthetic flight generator returns between 8 and 12 offers
sorted ascending by price, and the synthetic hotel generator returns between
8 and 15 offers sorted ascending by nightly price. -/
theorem C9_mock_generators (g : MockRand) (hdist : ℚ × ℚ → ℚ × ℚ → ℚ)
    (origin destination departure_date city ci co : String)
    (passengers adults rooms : Nat) (class_type : String)
    (return_date : Option String) (landmark : Option (ℚ × ℚ)) :
    8 ≤ (generateMockFlights g origin destination departure_date passengers
        class_type return_date).length ∧
    (generateMockFlights g origin destination departure_date passengers
        class_type return_date).length ≤ 12 ∧
    List.Sorted offerLe (generateMockFlights g origin destination departure_date passengers
        class_type return_date) ∧
    8 ≤ (generateMockHotels g hdist city ci co adults rooms landmark).length ∧
    (generateMockHotels g hdist city ci co adults rooms landmark).length ≤ 15 ∧
    List.Sorted hotelLe (generateMockHotels g hdist city ci co adults rooms landmark) := by
  have hlf : (generateMockFlights g origin destination departure_date passengers
      class_type return_date).length = randintM g 0 8 12 := by
    unfold generateMockFlights
    rw [(List.perm_insertionSort offerLe _).length_eq, List.length_map, List.length_range]
  have hlh : (generateMockHotels g hdist city ci co adults rooms landmark).length
      = randintM g 0 8 15 := by
    unfold generateMockHotels
    rw [(List.perm_insertionSort hotelLe _).length_eq, List.length_map, List.length_range]
  refine ⟨?_, ?_, ?_, ?_, ?_, ?_⟩
  · rw [hlf]
    unfold randintM
    omega
  · rw [hlf]
    unfold randintM
    have : g.nat 0 % (12 - 8 + 1) < 5 := Nat.mod_lt _ (by norm_num)
    omega
  · exact List.sorted_insertionSort offerLe _
  · rw [hlh]
    unfold randintM
    omega
  · rw [hlh]
    unfold randintM
    have : g.nat 0 % (15 - 8 + 1) < 8 := Nat.mod_lt _ (by norm_num)
    omega
  · exact List.sorted_insertionSort hotelLe _

end TravelPlanner
